import Mathlib

/-!
Verification of the appeal-analysis frontend pipeline
(`src/frontend/components/pages/results-page.tsx` and
`src/frontend/components/pipeline-step-card.tsx`).

The development shallowly embeds the orchestration and aggregation logic of
the `HomePage` component: the three-stage pipeline state machine
(`handleStep1`/`handleStep2`/`handleStep3` plus the run-button gating of
`PipelineStepCard`), the artifact-name bookkeeping
(`realClusteredFilename` / fallback names), the error surfacing of the
`lib/api` wrappers, and the `reportData` aggregation memo.

Remote calls are modelled by parameterising each handler over the outcome of
its remote invocations and recording the list of calls it issues; handler
runs are treated as atomic events, matching the single-threaded,
one-stage-at-a-time execution model of the component.
-/

namespace AppealAnalysis

/-! ## Report aggregation (`reportData` memo, results-page.tsx lines 503-567) -/

/-- One element of `KeywordsResponse.result`: the handler reads the fields
`Cluster`, `LLM_Keywords` and the optional `Count` (probed as `item.Count`
on an untyped row). `Count` is absent when the backend did not supply
aggregate counts. -/
structure KeywordRow where
  Cluster : Int
  LLM_Keywords : String
  Count : Option Nat
  deriving Repr, DecidableEq

/-- An element of `analysisList`: `{clusterId, keyword, count}`. -/
structure AnalysisItem where
  clusterId : Int
  keyword : String
  count : Nat
  deriving Repr, DecidableEq

/-- An element of `processedList`: an `AnalysisItem` with the computed
`percentage` spread in. -/
structure ProcItem where
  clusterId : Int
  keyword : String
  count : Nat
  percentage : ℚ
  deriving Repr, DecidableEq

/-- Per-row count of `reportData`:
`count: item.Count ? Number(item.Count) : 1` (line 517).  A JS number is
falsy exactly when it is `0`, and an absent field is falsy, so the reported
count is used only when it is present and nonzero. -/
def rowCount (c : Option Nat) : Nat :=
  match c with
  | some v => if v = 0 then 1 else v
  | none => 1

/-- The map of line 512: a raw row becomes `{clusterId, keyword, count}`. -/
def toAnalysisItem (item : KeywordRow) : AnalysisItem :=
  { clusterId := item.Cluster
    keyword := item.LLM_Keywords
    count := rowCount item.Count }

/-- The map of line 524: spread `percentage` into an item. -/
def toProcItem (totalRecords : Nat) (item : AnalysisItem) : ProcItem :=
  { clusterId := item.clusterId
    keyword := item.keyword
    count := item.count
    percentage := if totalRecords > 0 then (item.count : ℚ) / (totalRecords : ℚ) else 0 }

/-- `reduce((sum, item) => sum + item.count, 0)` over a processed list. -/
def sumCounts (l : List ProcItem) : Nat :=
  l.foldl (fun sum item => sum + item.count) 0

/-- `reduce((sum, item) => sum + item.count, 0)` over the analysis list
(line 521). -/
def sumCountsA (l : List AnalysisItem) : Nat :=
  l.foldl (fun sum item => sum + item.count) 0

/-- Insert an item into a list already sorted by `count` descending, after
every element with a strictly larger count.  Helper for the stable
descending sort below. -/
def insertByCountDesc (x : ProcItem) : List ProcItem → List ProcItem
  | [] => [x]
  | y :: ys => if x.count < y.count then y :: insertByCountDesc x ys else x :: y :: ys

/-- `validClusters.sort((a, b) => b.count - a.count)` (line 533):
`Array.prototype.sort` is stable, and this comparator orders by `count`
descending, so the result is the stable descending-by-count sort. -/
def sortByCountDesc : List ProcItem → List ProcItem
  | [] => []
  | x :: xs => insertByCountDesc x (sortByCountDesc xs)

/-- One bar of the `top10` chart data (line 542). -/
structure ChartItem where
  name : String
  fullName : String
  count : Nat
  deriving Repr, DecidableEq

/-- The keyword shown in place of the noise row's keyword in
`fullDisplayList` (line 554). -/
def noiseDisplayKeyword : String := "⚠️ 离散/无法归类的数据 (噪音)"

/-- The value returned by the `reportData` memo. -/
structure Report where
  totalRecords : Nat
  topicCount : Nat
  coverage : ℚ
  noiseCount : Nat
  top10 : List ChartItem
  fullDisplayList : List ProcItem
  deriving Repr, DecidableEq

/-- The body of the `reportData` memo (lines 503-567) applied to
`keywordsResult.result`. -/
def reportData (rawData : List KeywordRow) : Report :=
  let analysisList := rawData.map toAnalysisItem
  let totalRecords := sumCountsA analysisList
  let processedList := analysisList.map (toProcItem totalRecords)
  let validClusters := processedList.filter (fun i => i.clusterId ≠ -1)
  let noiseCluster := processedList.find? (fun i => i.clusterId = -1)
  let sortedValid := sortByCountDesc validClusters
  let validCount := sumCounts sortedValid
  let noiseCount := match noiseCluster with
    | some n => n.count
    | none => 0
  let coverage : ℚ := if totalRecords > 0 then (validCount : ℚ) / (totalRecords : ℚ) else 0
  let topicCount := sortedValid.length
  let top10 := (sortedValid.take 10).map (fun item =>
    { name := if item.keyword.length > 8 then item.keyword.take 8 ++ "..." else item.keyword
      fullName := item.keyword
      count := item.count : ChartItem })
  let fullDisplayList := sortedValid ++ (match noiseCluster with
    | some n => [{ n with keyword := noiseDisplayKeyword }]
    | none => [])
  { totalRecords := totalRecords
    topicCount := topicCount
    coverage := coverage
    noiseCount := noiseCount
    top10 := top10
    fullDisplayList := fullDisplayList }

/-! ## Artifact name resolution

`handleStep2`/`handleStep3` record the canonical output name via
`res.output_file.split(/[/\\]/).pop()` guarded by truthiness checks
(lines 429-435 and 478-484), and stage 3 resolves its input as
`realClusteredFilename || fallbackClusteredFilename` (line 447). -/

/-- A character is a path separator of the regex `/[/\\]/`. -/
def isPathSep (c : Char) : Bool := c = '/' || c = '\\'

/-- `fullPath.split(/[/\\]/)` on the underlying character list: JS
`String.prototype.split` keeps empty segments, and yields `[""]` on the
empty string. -/
def splitSegs : List Char → List Char → List String
  | [], acc => [String.mk acc.reverse]
  | c :: rest, acc =>
    if isPathSep c then String.mk acc.reverse :: splitSegs rest []
    else splitSegs rest (c :: acc)

/-- `fullPath.split(/[/\\]/).pop()`: the last segment; `Array.prototype.pop`
returns `undefined` only on an empty array, which `split` never produces. -/
def lastSegment (fullPath : String) : Option String :=
  (splitSegs fullPath.data []).getLast?

/-- The canonical-name recording of lines 429-435 (and likewise 478-484):
`if (res && res.output_file) { const realName = res.output_file.split(/[/\\]/).pop(); if (realName) setReal...(realName); }`.
`prev` is the value the state field keeps when nothing is recorded.  An
absent `output_file` is `undefined` and an empty one is falsy, so both skip
the block; a `pop`ped empty segment is falsy, so it is not recorded. -/
def updateCanonical (prev : Option String) (outputFile : Option String) : Option String :=
  match outputFile with
  | none => prev
  | some fullPath =>
    if fullPath = "" then prev
    else
      match lastSegment fullPath with
      | some realName => if realName = "" then prev else some realName
      | none => prev

/-- JS `a || b` on two nullable strings: `a` is used unless it is absent or
empty (the only falsy strings). -/
def jsOrString (a b : Option String) : Option String :=
  match a with
  | some s => if s = "" then b else some s
  | none => b

/-! ## Remote error surfacing (`lib/api` wrappers, lines 1079-1082 etc.)

Every form-posting wrapper handles a non-2xx response with
`const err = await res.json().catch(() => ({ detail: "Unknown error" }));`
`throw new Error(err.detail || `HTTP ${res.status}`);`
while `downloadFile` throws `Download failed: HTTP <status>` unconditionally. -/

/-- The JSON body of a non-2xx response as the wrapper sees it: either it
fails to parse, or it parses with an optional `detail` field. -/
inductive ErrorBody where
  | unparseable
  | parsed (detail : Option String)
  deriving Repr, DecidableEq

/-- `(await res.json().catch(() => ({detail: "Unknown error"}))).detail`. -/
def errDetail (b : ErrorBody) : Option String :=
  match b with
  | .unparseable => some "Unknown error"
  | .parsed d => d

/-- The generic fallback message interpolated from the response status. -/
def httpStatusMessage (status : Nat) : String := "HTTP " ++ toString status

/-- The surfaced error text of a non-2xx response for the form-posting
wrappers (`preprocessFile`, `clusterData`, `evaluateCluster`,
`extractKeywords`, `loadState`): `err.detail || `HTTP ${res.status}``,
where an absent or empty `detail` is falsy. -/
def surfacedError (status : Nat) (b : ErrorBody) : String :=
  match errDetail b with
  | some d => if d = "" then httpStatusMessage status else d
  | none => httpStatusMessage status

/-- The surfaced error text of a non-2xx response of `downloadFile`
(line 1172), which never inspects the body. -/
def downloadErrorMessage (status : Nat) : String :=
  "Download failed: HTTP " ++ toString status

/-! ## Pipeline state machine (`HomePage`, results-page.tsx lines 300-637)

The component state relevant to orchestration, the three handlers, and the
run-button gating of `PipelineStepCard`.  Each handler is modelled as an
atomic run parameterised by the outcome of its remote calls; it returns the
new component state together with the list of remote calls it issued. -/

/-- Response of `POST /api/preprocess` (`PreprocessResponse`). -/
structure PreprocessResponse where
  message : String
  total_rows : Nat
  valid_rows : Nat
  removed_rows : Nat
  deriving Repr, DecidableEq

/-- Response of `POST /api/cluster` (`ClusterResponse`).  `output_file` is
probed defensively as `(res as any).output_file`, so it is optional here. -/
structure ClusterResponse where
  message : String
  total_texts : Nat
  n_clusters : Nat
  n_noise : Nat
  output_file : Option String
  deriving Repr, DecidableEq

/-- Response of `POST /api/extract-keywords` (`KeywordsResponse`), with the
same defensive probing of `output_file`. -/
structure KeywordsResponse where
  message : String
  result : List KeywordRow
  output_file : Option String
  deriving Repr, DecidableEq

/-- `CleanConfig` (lines 272-276). -/
structure CleanConfig where
  extractor : String
  useNer : Bool
  column : String
  deriving Repr, DecidableEq

/-- `ClusterConfig` (lines 278-285). -/
structure ClusterConfig where
  nNeighbors : Nat
  nComponents : Nat
  minCluster : Nat
  topN : Nat
  textColumn : String
  originalColumn : String
  deriving Repr, DecidableEq

/-- `LlmConfig` (lines 287-290). -/
structure LlmConfig where
  apiKey : String
  baseUrl : String
  deriving Repr, DecidableEq

/-- The `useState` fields of `HomePage` that take part in orchestration.
`file` holds the selected file's name (the only part of the `File` object
the pipeline logic consumes). -/
structure HomeState where
  file : Option String
  preprocessResult : Option PreprocessResponse
  clusterResult : Option ClusterResponse
  keywordsResult : Option KeywordsResponse
  realClusteredFilename : Option String
  realKeywordsFilename : Option String
  step1Loading : Bool
  step2Loading : Bool
  step3Loading : Bool
  step1Progress : Nat
  step1ProgressText : String
  step2Progress : Nat
  step2ProgressText : String
  step3Progress : Nat
  step3ProgressText : String
  error : Option String
  llmDialogOpen : Bool
  cleanCfg : CleanConfig
  clusterCfg : ClusterConfig
  llmCfg : LlmConfig
  deriving Repr, DecidableEq

/-- `StepStatus` of `pipeline-step-card.tsx` (line 10). -/
inductive StepStatus where
  | waiting
  | ready
  | running
  | done
  deriving Repr, DecidableEq, BEq

/-- Line 355: `step1Loading ? "running" : preprocessResult ? "done" : file ? "ready" : "ready"`
(both branches of the final conditional are `"ready"`). -/
def step1Status (s : HomeState) : StepStatus :=
  if s.step1Loading then .running
  else if s.preprocessResult.isSome then .done
  else .ready

/-- Line 356: `step2Loading ? "running" : clusterResult ? "done" : preprocessResult ? "ready" : "waiting"`. -/
def step2Status (s : HomeState) : StepStatus :=
  if s.step2Loading then .running
  else if s.clusterResult.isSome then .done
  else if s.preprocessResult.isSome then .ready
  else .waiting

/-- Line 357: `step3Loading ? "running" : keywordsResult ? "done" : clusterResult ? "ready" : "waiting"`. -/
def step3Status (s : HomeState) : StepStatus :=
  if s.step3Loading then .running
  else if s.keywordsResult.isSome then .done
  else if s.clusterResult.isSome then .ready
  else .waiting

/-- Line 360: `processedFilename = file ? \`processed_${file.name}\` : null`. -/
def processedFilename (s : HomeState) : Option String :=
  s.file.map (fun n => "processed_" ++ n)

/-- Line 361: the deterministic fallback name for the clustered artifact. -/
def fallbackClusteredFilename (s : HomeState) : Option String :=
  s.file.map (fun n => "clustered_" ++ n)

/-- Line 362: the deterministic fallback name for the keywords artifact. -/
def fallbackKeywordsFilename (s : HomeState) : Option String :=
  s.file.map (fun n => "keywords_" ++ n)

/-- A remote call issued by a handler, with the request data the handler
passes to the `lib/api` wrapper. -/
inductive RemoteCall where
  | preprocess (fileName extractor : String) (useNer : Bool) (column : String)
  | cluster (fileName textColumn originalColumn : String)
      (nNeighbors nComponents minClusterSize keywordTopN : Nat) (autoSave : Bool)
  | extractKw (fileName apiKey baseUrl textCol : String)
  | download (filename : String)
  deriving Repr, DecidableEq

/-- Outcome of the single remote call of `handleStep1`. -/
inductive Step1Outcome where
  | failure (msg : String)
  | success (res : PreprocessResponse)
  deriving Repr, DecidableEq

/-- Outcome of the remote calls of `handleStep2` (a download followed by
the cluster call). -/
inductive Step2Outcome where
  | downloadFailure (msg : String)
  | clusterFailure (msg : String)
  | success (res : ClusterResponse)
  deriving Repr, DecidableEq

/-- Outcome of the remote calls of `handleStep3` (a download followed by
the extract-keywords call). -/
inductive Step3Outcome where
  | downloadFailure (msg : String)
  | keywordsFailure (msg : String)
  | success (res : KeywordsResponse)
  deriving Repr, DecidableEq

/-- The synchronous prefix of `handleStep1` (lines 367-380): everything the
handler commits before its remote call resolves — loading flag, error
reset, the reset of all results and artifact references, and the progress
checkpoints up to the one preceding the call. -/
def step1Started (s : HomeState) : HomeState :=
  { s with
    step1Loading := true
    error := none
    preprocessResult := none
    clusterResult := none
    keywordsResult := none
    realClusteredFilename := none
    realKeywordsFilename := none
    step1Progress := 40
    step1ProgressText := "正在使用提取器处理数据..." }

/-- `handleStep1` (lines 365-392) as an atomic run: guard on `file`, the
synchronous reset, the `preprocessFile` call, then the success or failure
continuation and the `finally` clearing of the loading flag. -/
def handleStep1 (s : HomeState) (o : Step1Outcome) : HomeState × List RemoteCall :=
  match s.file with
  | none => (s, [])
  | some name =>
    let s1 := step1Started s
    let call := RemoteCall.preprocess name s.cleanCfg.extractor s.cleanCfg.useNer s.cleanCfg.column
    match o with
    | .failure msg =>
      ({ s1 with error := some msg, step1Loading := false }, [call])
    | .success res =>
      ({ s1 with
          step1Progress := 100
          step1ProgressText := "处理完成"
          preprocessResult := some res
          step1Loading := false }, [call])

/-- The synchronous prefix of `handleStep2` (lines 397-405): loading flag,
error reset, the reset of the downstream results and artifact reference,
and the progress checkpoint preceding the download. -/
def step2Started (s : HomeState) : HomeState :=
  { s with
    step2Loading := true
    error := none
    clusterResult := none
    keywordsResult := none
    realKeywordsFilename := none
    step2Progress := 10
    step2ProgressText := "正在下载预处理文件..." }

/-- `handleStep2` (lines 395-443) as an atomic run: guard on
`processedFilename`, the synchronous reset, the artifact download, the
`clusterData` call, the canonical-name recording of lines 429-435, and the
success or failure continuations. -/
def handleStep2 (s : HomeState) (o : Step2Outcome) : HomeState × List RemoteCall :=
  match processedFilename s with
  | none => (s, [])
  | some pname =>
    let s1 := step2Started s
    let clusterCall := RemoteCall.cluster pname s.clusterCfg.textColumn s.clusterCfg.originalColumn
      s.clusterCfg.nNeighbors s.clusterCfg.nComponents s.clusterCfg.minCluster s.clusterCfg.topN true
    match o with
    | .downloadFailure msg =>
      ({ s1 with error := some msg, step2Loading := false }, [.download pname])
    | .clusterFailure msg =>
      let s2 := { s1 with step2Progress := 30, step2ProgressText := "SBERT 编码 + HDBSCAN 聚类中..." }
      ({ s2 with error := some msg, step2Loading := false }, [.download pname, clusterCall])
    | .success res =>
      let s2 := { s1 with step2Progress := 100, step2ProgressText := "聚类完成" }
      let s3 := { s2 with realClusteredFilename := updateCanonical s2.realClusteredFilename res.output_file }
      ({ s3 with clusterResult := some res, step2Loading := false }, [.download pname, clusterCall])

/-- Line 447: `const targetFilename = realClusteredFilename || fallbackClusteredFilename`,
normalised so that the falsy values rejected by `if (!targetFilename)` are
`none`. -/
def resolveTarget (s : HomeState) : Option String :=
  match jsOrString s.realClusteredFilename (fallbackClusteredFilename s) with
  | some t => if t = "" then none else some t
  | none => none

/-- The error message of the missing-artifact guard of `handleStep3`
(line 449). -/
def missingClusterFileMessage : String := "无法找到聚类文件，请重新执行第二步"

/-- The synchronous prefix of the run phase of `handleStep3`
(lines 457-463), entered only after both guards pass. -/
def step3Started (s : HomeState) : HomeState :=
  { s with
    step3Loading := true
    error := none
    keywordsResult := none
    step3Progress := 15
    step3ProgressText := "正在下载聚类文件..." }

/-- `handleStep3` (lines 446-492) as an atomic run: the missing-artifact
guard, the empty-credential guard (which opens the LLM config dialog and
returns), the synchronous reset, the artifact download, the
`extractKeywords` call with text column `"Text"`, the canonical-name
recording of lines 478-484, and the success or failure continuations. -/
def handleStep3 (s : HomeState) (o : Step3Outcome) : HomeState × List RemoteCall :=
  match resolveTarget s with
  | none => ({ s with error := some missingClusterFileMessage }, [])
  | some target =>
    if s.llmCfg.apiKey = "" then
      ({ s with llmDialogOpen := true }, [])
    else
      let s1 := step3Started s
      let kwCall := RemoteCall.extractKw target s.llmCfg.apiKey s.llmCfg.baseUrl "Text"
      match o with
      | .downloadFailure msg =>
        ({ s1 with error := some msg, step3Loading := false }, [.download target])
      | .keywordsFailure msg =>
        let s2 := { s1 with step3Progress := 40, step3ProgressText := "AI 正在阅读并生成标签 (请稍候)..." }
        ({ s2 with error := some msg, step3Loading := false }, [.download target, kwCall])
      | .success res =>
        let s2 := { s1 with step3Progress := 100, step3ProgressText := "摘要生成完成" }
        let s3 := { s2 with realKeywordsFilename := updateCanonical s2.realKeywordsFilename res.output_file }
        ({ s3 with keywordsResult := some res, step3Loading := false }, [.download target, kwCall])

/-- The run-button gating of `PipelineStepCard` (line 118):
`disabled = runDisabled || status === "running" || status === "waiting"`. -/
def runButtonDisabled (runDisabled : Bool) (status : StepStatus) : Bool :=
  runDisabled || status == .running || status == .waiting

/-- A click on step 1's run button: the card receives
`runDisabled={!file}` (line 597); a disabled button does nothing. -/
def clickStep1 (s : HomeState) (o : Step1Outcome) : HomeState × List RemoteCall :=
  if runButtonDisabled s.file.isNone (step1Status s) then (s, []) else handleStep1 s o

/-- A click on step 2's run button: the card receives no `runDisabled`
(default `false`, lines 609-619). -/
def clickStep2 (s : HomeState) (o : Step2Outcome) : HomeState × List RemoteCall :=
  if runButtonDisabled false (step2Status s) then (s, []) else handleStep2 s o

/-- A click on step 3's run button (lines 626-636). -/
def clickStep3 (s : HomeState) (o : Step3Outcome) : HomeState × List RemoteCall :=
  if runButtonDisabled false (step3Status s) then (s, []) else handleStep3 s o

/-- The operator-driven events of `HomePage`: selecting or clearing the
input file (`FileUpload` calls `setFile` directly, line 601), clicking a
run button (with the outcome its remote calls will have), and saving a
config dialog (`onSave` commits the draft copy, lines 900, 934, 973). -/
inductive Event where
  | selectFile (name : Option String)
  | run1 (o : Step1Outcome)
  | run2 (o : Step2Outcome)
  | run3 (o : Step3Outcome)
  | saveCleanCfg (c : CleanConfig)
  | saveClusterCfg (c : ClusterConfig)
  | saveLlmCfg (c : LlmConfig)

/-- One event applied to the component state. -/
def stepEvent (s : HomeState) : Event → HomeState
  | .selectFile name => { s with file := name }
  | .run1 o => (clickStep1 s o).1
  | .run2 o => (clickStep2 s o).1
  | .run3 o => (clickStep3 s o).1
  | .saveCleanCfg c => { s with cleanCfg := c }
  | .saveClusterCfg c => { s with clusterCfg := c }
  | .saveLlmCfg c => { s with llmCfg := c }

/-- The initial component state (the `useState` initialisers of
lines 302-352). -/
def initState : HomeState :=
  { file := none
    preprocessResult := none
    clusterResult := none
    keywordsResult := none
    realClusteredFilename := none
    realKeywordsFilename := none
    step1Loading := false
    step2Loading := false
    step3Loading := false
    step1Progress := 0
    step1ProgressText := ""
    step2Progress := 0
    step2ProgressText := ""
    step3Progress := 0
    step3ProgressText := ""
    error := none
    llmDialogOpen := false
    cleanCfg := { extractor := "12366", useNer := true, column := "业务内容" }
    clusterCfg :=
      { nNeighbors := 15, nComponents := 5, minCluster := 10, topN := 5
        textColumn := "Sanitized_Content", originalColumn := "业务编号" }
    llmCfg := { apiKey := "sk-f1fec6b90628475ba7ce12b2c389c85a", baseUrl := "https://api.deepseek.com" } }

/-- States of `HomePage` reachable from the initial state through operator
events. -/
inductive Reachable : HomeState → Prop where
  | init : Reachable initState
  | step {s : HomeState} (e : Event) : Reachable s → Reachable (stepEvent s e)

/-! ## Derived and spec-level definitions used by the claims -/

/-- The spec-level per-row counts of the rows assigned to a non-noise
cluster, summed.  This is the `validCount` quantity of the spec, expressed
directly on the raw rows. -/
def validCountOf (rows : List KeywordRow) : Nat :=
  ((rows.filter (fun r => r.Cluster ≠ -1)).map (fun r => rowCount r.Count)).sum

/-- The noise rows of a raw row set. -/
def noiseRowsOf (rows : List KeywordRow) : List KeywordRow :=
  rows.filter (fun r => r.Cluster = -1)

/-- The per-row count as claim C1 words it: the row's reported count if
present, and otherwise `1`.  Stated from the claim, for comparison with the
source's `rowCount`. -/
def specRowCount (c : Option Nat) : Nat := c.getD 1

/-- Facts holding in every quiescent (between-events) state: no handler is
mid-run, and a stage's committed result implies its upstream stage's
committed result (a stage can only have run while its upstream stage was
`Done`). -/
def QuiescentInv (s : HomeState) : Prop :=
  s.step1Loading = false ∧ s.step2Loading = false ∧ s.step3Loading = false
  ∧ (s.clusterResult.isSome → s.preprocessResult.isSome)
  ∧ (s.keywordsResult.isSome → s.clusterResult.isSome)

/-- Row set with two noise rows, on which claim C7's `noiseCount = 0
otherwise` clause fails. -/
def c7rows : List KeywordRow :=
  [{ Cluster := 0, LLM_Keywords := "a", Count := some 4 },
   { Cluster := -1, LLM_Keywords := "n", Count := some 2 },
   { Cluster := -1, LLM_Keywords := "m", Count := some 3 }]

/-- Row set with a duplicated non-noise cluster id, on which claim C8's
`number of distinct non-noise cluster ids` fails. -/
def c8rows : List KeywordRow :=
  [{ Cluster := 0, LLM_Keywords := "a", Count := some 1 },
   { Cluster := 0, LLM_Keywords := "b", Count := some 1 }]

/-- A concrete state in which all three stages have completed, with
recorded artifact references. -/
def c4State : HomeState :=
  { initState with
    file := some "survey.xlsx"
    preprocessResult := some { message := "ok", total_rows := 10, valid_rows := 9, removed_rows := 1 }
    clusterResult := some
      { message := "ok", total_texts := 9, n_clusters := 2, n_noise := 1
        output_file := some "out/clustered_report.xlsx" }
    keywordsResult := some
      { message := "ok"
        result := [{ Cluster := 0, LLM_Keywords := "a", Count := some 5 }]
        output_file := some "out/keywords_report.xlsx" }
    realClusteredFilename := some "clustered_report.xlsx"
    realKeywordsFilename := some "keywords_report.xlsx" }

/-- A concrete state with a selected file, a completed stage 2 and an
empty API key. -/
def c5State : HomeState :=
  { initState with
    file := some "survey.xlsx"
    preprocessResult := some { message := "ok", total_rows := 10, valid_rows := 9, removed_rows := 1 }
    clusterResult := some
      { message := "ok", total_texts := 9, n_clusters := 2, n_noise := 1
        output_file := some "out/clustered_report.xlsx" }
    realClusteredFilename := some "clustered_report.xlsx"
    llmCfg := { apiKey := "", baseUrl := "https://api.deepseek.com" } }

/-! ## Helper lemmas about the aggregation -/

theorem foldl_add_count (l : List ProcItem) (n : Nat) :
    l.foldl (fun sum item => sum + item.count) n = n + (l.map ProcItem.count).sum := by
  induction l generalizing n with
  | nil => simp
  | cons x xs ih => simp [ih, Nat.add_assoc]

theorem sumCounts_eq (l : List ProcItem) : sumCounts l = (l.map ProcItem.count).sum := by
  simp [sumCounts, foldl_add_count]

theorem foldl_add_countA (l : List AnalysisItem) (n : Nat) :
    l.foldl (fun sum item => sum + item.count) n = n + (l.map AnalysisItem.count).sum := by
  induction l generalizing n with
  | nil => simp
  | cons x xs ih => simp [ih, Nat.add_assoc]

theorem sumCountsA_eq (l : List AnalysisItem) : sumCountsA l = (l.map AnalysisItem.count).sum := by
  simp [sumCountsA, foldl_add_countA]

theorem insertByCountDesc_perm (x : ProcItem) (l : List ProcItem) :
    (insertByCountDesc x l).Perm (x :: l) := by
  induction l with
  | nil => simp [insertByCountDesc]
  | cons y ys ih =>
    by_cases h : x.count < y.count
    · simp only [insertByCountDesc, if_pos h]
      exact ((ih.cons y).trans (List.Perm.swap x y ys))
    · simp [insertByCountDesc, if_neg h]

theorem sortByCountDesc_perm (l : List ProcItem) : (sortByCountDesc l).Perm l := by
  induction l with
  | nil => simp [sortByCountDesc]
  | cons x xs ih =>
    exact (insertByCountDesc_perm x (sortByCountDesc xs)).trans (ih.cons x)

theorem length_sortByCountDesc (l : List ProcItem) :
    (sortByCountDesc l).length = l.length :=
  (sortByCountDesc_perm l).length_eq

theorem sumCounts_sortByCountDesc (l : List ProcItem) :
    sumCounts (sortByCountDesc l) = sumCounts l := by
  rw [sumCounts_eq, sumCounts_eq]
  exact ((sortByCountDesc_perm l).map ProcItem.count).sum_eq

@[simp] theorem toProcItem_clusterId (t : Nat) (i : AnalysisItem) :
    (toProcItem t i).clusterId = i.clusterId := rfl

@[simp] theorem toProcItem_count (t : Nat) (i : AnalysisItem) :
    (toProcItem t i).count = i.count := rfl

@[simp] theorem toAnalysisItem_clusterId (r : KeywordRow) :
    (toAnalysisItem r).clusterId = r.Cluster := rfl

@[simp] theorem toAnalysisItem_count (r : KeywordRow) :
    (toAnalysisItem r).count = rowCount r.Count := rfl

/-- `find?` returns the head of the filtered list. -/
theorem find?_eq_head_filter {α : Type} (p : α → Bool) (l : List α) :
    l.find? p = (l.filter p).head? := by
  induction l with
  | nil => rfl
  | cons x xs ih =>
    by_cases h : p x
    · simp [List.find?_cons, h]
    · simp only [List.find?_cons, h, List.filter_cons]
      simp only [Bool.false_eq_true, if_false, ih]

/-- Splitting a sum of mapped values along a decidable predicate. -/
theorem sum_map_filter_split {α : Type} (p : α → Bool) (f : α → Nat) (l : List α) :
    ((l.filter p).map f).sum + ((l.filter (fun a => ! p a)).map f).sum = (l.map f).sum := by
  induction l with
  | nil => simp
  | cons x xs ih =>
    by_cases h : p x <;> simp [List.filter_cons, h] <;> omega

@[simp] theorem reportData_totalRecords (rows : List KeywordRow) :
    (reportData rows).totalRecords = sumCountsA (rows.map toAnalysisItem) := rfl

theorem totalRecords_eq (rows : List KeywordRow) :
    (reportData rows).totalRecords = (rows.map (fun r => rowCount r.Count)).sum := by
  rw [reportData_totalRecords, sumCountsA_eq, List.map_map]
  rfl

theorem valid_filter_eq (rows : List KeywordRow) (T : Nat) :
    ((rows.map toAnalysisItem).map (toProcItem T)).filter (fun i => i.clusterId ≠ -1)
      = (rows.filter (fun r => r.Cluster ≠ -1)).map (fun r => toProcItem T (toAnalysisItem r)) := by
  rw [List.filter_map, List.filter_map, List.map_map]
  rfl

theorem noise_find_eq (rows : List KeywordRow) (T : Nat) :
    ((rows.map toAnalysisItem).map (toProcItem T)).find? (fun i => i.clusterId = -1)
      = (rows.find? (fun r => r.Cluster = -1)).map (fun r => toProcItem T (toAnalysisItem r)) := by
  rw [List.find?_map, List.find?_map, Option.map_map]
  rfl

theorem reportData_topicCount_eq (rows : List KeywordRow) :
    (reportData rows).topicCount = (rows.filter (fun r => r.Cluster ≠ -1)).length := by
  show (sortByCountDesc (((rows.map toAnalysisItem).map
      (toProcItem (sumCountsA (rows.map toAnalysisItem)))).filter
        (fun i => i.clusterId ≠ -1))).length = _
  rw [length_sortByCountDesc, valid_filter_eq, List.length_map]

theorem reportData_validCount_eq (rows : List KeywordRow) :
    sumCounts (sortByCountDesc (((rows.map toAnalysisItem).map
        (toProcItem (sumCountsA (rows.map toAnalysisItem)))).filter
          (fun i => i.clusterId ≠ -1))) = validCountOf rows := by
  rw [sumCounts_sortByCountDesc, sumCounts_eq, valid_filter_eq, List.map_map]
  rfl

theorem reportData_coverage_eq (rows : List KeywordRow) :
    (reportData rows).coverage =
      if (reportData rows).totalRecords = 0 then 0
      else (validCountOf rows : ℚ) / ((reportData rows).totalRecords : ℚ) := by
  show (if sumCountsA (rows.map toAnalysisItem) > 0 then
      (sumCounts (sortByCountDesc (((rows.map toAnalysisItem).map
        (toProcItem (sumCountsA (rows.map toAnalysisItem)))).filter
          (fun i => i.clusterId ≠ -1))) : ℚ) / (sumCountsA (rows.map toAnalysisItem) : ℚ)
      else 0) = _
  rw [reportData_validCount_eq, reportData_totalRecords]
  rcases Nat.eq_zero_or_pos (sumCountsA (rows.map toAnalysisItem)) with h | h
  · simp [h]
  · rw [if_pos h, if_neg (Nat.pos_iff_ne_zero.mp h)]

theorem reportData_noiseCount_eq (rows : List KeywordRow) :
    (reportData rows).noiseCount =
      match rows.find? (fun r => r.Cluster = -1) with
      | some r => rowCount r.Count
      | none => 0 := by
  show (match ((rows.map toAnalysisItem).map
      (toProcItem (sumCountsA (rows.map toAnalysisItem)))).find?
        (fun i => i.clusterId = -1) with
      | some n => n.count
      | none => 0) = _
  rw [noise_find_eq]
  cases rows.find? (fun r => r.Cluster = -1) <;> rfl

/-- The total is the valid-row counts plus the noise-row counts. -/
theorem totalRecords_split (rows : List KeywordRow) :
    (reportData rows).totalRecords
      = validCountOf rows + ((noiseRowsOf rows).map (fun r => rowCount r.Count)).sum := by
  rw [totalRecords_eq]
  have h := sum_map_filter_split (fun r : KeywordRow => r.Cluster = -1)
    (fun r => rowCount r.Count) rows
  rw [← h]
  have hpred : (fun r : KeywordRow => ! decide (r.Cluster = -1))
      = (fun r : KeywordRow => decide (r.Cluster ≠ -1)) := by
    funext r
    simp [decide_not]
  rw [hpred]
  unfold validCountOf noiseRowsOf
  omega

/-! ## Claims about the aggregation (C1, C7, C8) -/

/-- C1 (counterexample): a row whose reported count is present, numeric and
equal to `0` contributes `1` to `totalRecords`, not `0` as the claim
demands, because the source tests `item.Count` for truthiness and the
number `0` is falsy. -/
theorem C1_count_fallback_counterexample :
    (reportData [({ Cluster := 0, LLM_Keywords := "a", Count := some 0 } : KeywordRow)]).totalRecords = 1
    ∧ ([({ Cluster := 0, LLM_Keywords := "a", Count := some 0 } : KeywordRow)].map
        (fun r => specRowCount r.Count)).sum = 0
    ∧ rowCount (some 0) ≠ specRowCount (some 0) := by
  decide

/-- C1 (amended): the per-row count used for every row is the row's
reported count if present and nonzero, and otherwise defaults to `1`;
`totalRecords` is the sum of these per-row counts, so a row lacking a
numeric count or reporting `0` contributes exactly `1`, and a row with a
nonzero numeric count contributes exactly that count. -/
theorem C1_count_fallback_amended (rows : List KeywordRow) :
    (reportData rows).totalRecords = (rows.map (fun r => rowCount r.Count)).sum
    ∧ rowCount none = 1
    ∧ rowCount (some 0) = 1
    ∧ ∀ v : Nat, v ≠ 0 → rowCount (some v) = v := by
  refine ⟨totalRecords_eq rows, rfl, rfl, fun v hv => ?_⟩
  simp [rowCount, hv]

/-- C1 (witness): the amended claim applied to a concrete row list and a
concrete nonzero count. -/
theorem C1_count_fallback_witness :
    (reportData [({ Cluster := 0, LLM_Keywords := "a", Count := some 7 } : KeywordRow)]).totalRecords
      = ([({ Cluster := 0, LLM_Keywords := "a", Count := some 7 } : KeywordRow)].map
          (fun r => rowCount r.Count)).sum
    ∧ rowCount (some 7) = 7 := by
  exact ⟨(C1_count_fallback_amended _).1,
    (C1_count_fallback_amended []).2.2.2 7 (by decide)⟩

/-- C7 (counterexample): with two rows of `clusterId = -1` (not exactly
one), the claim demands `noiseCount = 0`, but the source's
`find(i => i.clusterId === -1)` yields the first noise row, whose count
`2` becomes `noiseCount`. -/
theorem C7_metrics_counterexample :
    (noiseRowsOf c7rows).length = 2
    ∧ (reportData c7rows).noiseCount = 2
    ∧ (reportData c7rows).noiseCount ≠ 0 := by
  decide

/-- C7 (amended): for every row set, `coverage = validCount / totalRecords`
(`0` when `totalRecords = 0`); `noiseCount = totalRecords - validCount`
when exactly one row with `clusterId = -1` exists and `noiseCount = 0`
when no such row exists, while with several noise rows `noiseCount` is the
first noise row's per-row count (in general, the first noise row's count
or `0` when there is none). -/
theorem C7_metrics_amended (rows : List KeywordRow) :
    ((reportData rows).coverage =
      if (reportData rows).totalRecords = 0 then 0
      else (validCountOf rows : ℚ) / ((reportData rows).totalRecords : ℚ))
    ∧ ((noiseRowsOf rows).length = 1 →
        (reportData rows).noiseCount = (reportData rows).totalRecords - validCountOf rows)
    ∧ ((noiseRowsOf rows).length = 0 → (reportData rows).noiseCount = 0)
    ∧ ((reportData rows).noiseCount =
        match (noiseRowsOf rows).head? with
        | some r => rowCount r.Count
        | none => 0) := by
  have hgen : (reportData rows).noiseCount =
      match (noiseRowsOf rows).head? with
      | some r => rowCount r.Count
      | none => 0 := by
    rw [reportData_noiseCount_eq, find?_eq_head_filter]
    rfl
  refine ⟨reportData_coverage_eq rows, ?_, ?_, hgen⟩
  · intro h1
    obtain ⟨r, hr⟩ := List.length_eq_one.mp h1
    have hsplit := totalRecords_split rows
    rw [hr] at hsplit
    simp only [List.map_cons, List.map_nil, List.sum_cons, List.sum_nil] at hsplit
    rw [hgen, hr]
    simp only [List.head?_cons]
    omega
  · intro h0
    rw [hgen, List.length_eq_zero.mp h0]
    rfl

/-- C7 (witness): the amended claim applied to the spec's scenario row set
`[{Cluster: 0, count: 50}, {Cluster: 1, count: 30}, {Cluster: -1, count: 20}]`,
which has exactly one noise row. -/
theorem C7_metrics_witness :
    (reportData [({ Cluster := 0, LLM_Keywords := "a", Count := some 50 } : KeywordRow),
                 { Cluster := 1, LLM_Keywords := "b", Count := some 30 },
                 { Cluster := -1, LLM_Keywords := "n", Count := some 20 }]).noiseCount
      = (reportData [({ Cluster := 0, LLM_Keywords := "a", Count := some 50 } : KeywordRow),
                 { Cluster := 1, LLM_Keywords := "b", Count := some 30 },
                 { Cluster := -1, LLM_Keywords := "n", Count := some 20 }]).totalRecords
        - validCountOf [({ Cluster := 0, LLM_Keywords := "a", Count := some 50 } : KeywordRow),
                 { Cluster := 1, LLM_Keywords := "b", Count := some 30 },
                 { Cluster := -1, LLM_Keywords := "n", Count := some 20 }] := by
  exact (C7_metrics_amended _).2.1 (by decide)

/-- C8 (counterexample): on two rows sharing cluster id `0`, the source's
`topicCount = validClusters.length` is `2`, while the number of distinct
non-noise cluster ids is `1`. -/
theorem C8_topicCount_counterexample :
    (reportData c8rows).topicCount = 2
    ∧ ((c8rows.map KeywordRow.Cluster).filter (fun i => i ≠ -1)).dedup.length = 1
    ∧ (reportData c8rows).topicCount
        ≠ ((c8rows.map KeywordRow.Cluster).filter (fun i => i ≠ -1)).dedup.length := by
  decide

/-- C8 (amended): `topicCount` equals the number of non-noise rows; when
the rows carry pairwise-distinct cluster ids (as the upstream stage
produces one row per cluster), this equals the number of distinct
non-noise cluster ids; and the noise cluster (`clusterId = -1`) is never
counted in `topicCount` (prepending a noise row leaves it unchanged). -/
theorem C8_topicCount_amended :
    (∀ rows : List KeywordRow,
      (reportData rows).topicCount = (rows.filter (fun r => r.Cluster ≠ -1)).length)
    ∧ (∀ rows : List KeywordRow, (rows.map KeywordRow.Cluster).Nodup →
        (reportData rows).topicCount
          = ((rows.map KeywordRow.Cluster).filter (fun i => i ≠ -1)).dedup.length)
    ∧ (∀ (k : String) (c : Option Nat) (rows : List KeywordRow),
        (reportData ({ Cluster := -1, LLM_Keywords := k, Count := c } :: rows)).topicCount
          = (reportData rows).topicCount) := by
  have hfil : ∀ rows : List KeywordRow,
      (rows.map KeywordRow.Cluster).filter (fun i => i ≠ -1)
        = (rows.filter (fun r => r.Cluster ≠ -1)).map KeywordRow.Cluster := by
    intro rows
    rw [List.filter_map]
    rfl
  refine ⟨reportData_topicCount_eq, ?_, ?_⟩
  · intro rows hnd
    rw [reportData_topicCount_eq, hfil]
    rw [List.dedup_eq_self.mpr (hnd.sublist ((List.filter_sublist rows).map KeywordRow.Cluster))]
    rw [List.length_map]
  · intro k c rows
    rw [reportData_topicCount_eq, reportData_topicCount_eq]
    simp [List.filter_cons]

/-- C8 (witness): the amended claim's distinct-ids clause applied to the
spec's scenario row set, whose cluster ids `0, 1, -1` are pairwise
distinct. -/
theorem C8_topicCount_witness :
    (reportData [({ Cluster := 0, LLM_Keywords := "a", Count := some 50 } : KeywordRow),
                 { Cluster := 1, LLM_Keywords := "b", Count := some 30 },
                 { Cluster := -1, LLM_Keywords := "n", Count := some 20 }]).topicCount
      = (([({ Cluster := 0, LLM_Keywords := "a", Count := some 50 } : KeywordRow),
           { Cluster := 1, LLM_Keywords := "b", Count := some 30 },
           { Cluster := -1, LLM_Keywords := "n", Count := some 20 }].map
             KeywordRow.Cluster).filter (fun i => i ≠ -1)).dedup.length := by
  exact C8_topicCount_amended.2.1 _ (by decide)

/-! ## Helper lemmas about path splitting and fallback names -/

theorem splitSegs_ne_nil (cs : List Char) (acc : List Char) : splitSegs cs acc ≠ [] := by
  cases cs with
  | nil => simp [splitSegs]
  | cons c rest =>
    by_cases h : isPathSep c <;> simp [splitSegs, h]
    · exact splitSegs_ne_nil rest (c :: acc)

theorem getLast?_splitSegs_sep (cs : List Char) (acc : List Char) (c : Char)
    (h : isPathSep c) : (splitSegs (cs ++ [c]) acc).getLast? = some "" := by
  induction cs generalizing acc with
  | nil => simp [splitSegs, h]
  | cons c' rest ih =>
    by_cases h' : isPathSep c'
    · simp only [List.cons_append, splitSegs, h', if_pos]
      rcases hL : splitSegs (rest ++ [c]) [] with _ | ⟨y, ys⟩
      · exact absurd hL (splitSegs_ne_nil _ _)
      · rw [List.getLast?_cons_cons, ← hL, ih]
    · simp only [List.cons_append, splitSegs, h', if_neg, Bool.false_eq_true,
        not_false_eq_true]
      exact ih (c' :: acc)

/-- A path written as characters followed by a path separator has an empty
final segment. -/
theorem lastSegment_sep_ending (cs : List Char) (c : Char) (h : isPathSep c) :
    lastSegment (String.mk (cs ++ [c])) = some "" := by
  unfold lastSegment
  exact getLast?_splitSegs_sep cs [] c h

/-- The deterministic fallback names are never empty. -/
theorem clustered_fallback_ne_empty (n : String) : ("clustered_" ++ n : String) ≠ "" := by
  intro h
  have h2 := congrArg String.data h
  rw [String.data_append] at h2
  simp at h2

/-! ## Claims about artifact resolution (C3, C10) -/

/-- C3: artifact resolution prefers the canonical name over the fallback
whenever both exist: whenever a (necessarily nonempty) canonical name has
been recorded, `realClusteredFilename || fallbackClusteredFilename`
resolves to it; and a stage result with `output_file`
`"out/clustered_report.xlsx"` under input name `"survey.xlsx"` and prefix
`"clustered"` resolves to `"clustered_report.xlsx"`, not
`"clustered_survey.xlsx"`. -/
theorem C3_canonical_preference :
    (∀ (s : HomeState) (c : String), s.realClusteredFilename = some c → c ≠ "" →
      resolveTarget s = some c)
    ∧ updateCanonical none (some "out/clustered_report.xlsx") = some "clustered_report.xlsx"
    ∧ resolveTarget { initState with
        file := some "survey.xlsx"
        realClusteredFilename := updateCanonical none (some "out/clustered_report.xlsx") }
      = some "clustered_report.xlsx"
    ∧ some "clustered_report.xlsx"
      ≠ fallbackClusteredFilename { initState with
          file := some "survey.xlsx"
          realClusteredFilename := updateCanonical none (some "out/clustered_report.xlsx") } := by
  refine ⟨?_, by decide, by decide, by decide⟩
  intro s c hc hne
  simp [resolveTarget, jsOrString, hc, hne]

/-- C3 (witness): the preference clause applied to a concrete state whose
canonical and fallback names both exist. -/
theorem C3_canonical_preference_witness :
    resolveTarget { initState with
        file := some "survey.xlsx"
        realClusteredFilename := some "clustered_report.xlsx" }
      = some "clustered_report.xlsx" := by
  exact C3_canonical_preference.1 _ "clustered_report.xlsx" rfl (by decide)

/-- C10: a canonical artifact name is only recorded when the extracted
final path segment of the reported `output_file` is non-empty: an absent or
empty `output_file`, or one ending in a slash (whose final segment is
empty), leaves the canonical name unchanged (in particular `null`), and
with a `null` canonical name the downstream resolution uses the
deterministic fallback name. -/
theorem C10_canonical_nonempty :
    (∀ prev : Option String, updateCanonical prev none = prev)
    ∧ (∀ prev : Option String, updateCanonical prev (some "") = prev)
    ∧ (∀ (prev : Option String) (cs : List Char) (c : Char), isPathSep c →
        updateCanonical prev (some (String.mk (cs ++ [c]))) = prev)
    ∧ (∀ (p r : String), updateCanonical none (some p) = some r → r ≠ "")
    ∧ (∀ (s : HomeState) (n : String), s.realClusteredFilename = none → s.file = some n →
        resolveTarget s = some ("clustered_" ++ n)) := by
  refine ⟨fun prev => rfl, fun prev => by simp [updateCanonical], ?_, ?_, ?_⟩
  · intro prev cs c h
    by_cases hp : String.mk (cs ++ [c]) = "" <;>
      simp [updateCanonical, hp, lastSegment_sep_ending cs c h]
  · intro p r h
    by_cases hp : p = ""
    · simp [updateCanonical, hp] at h
    · simp only [updateCanonical, hp, if_neg] at h
      rcases hls : lastSegment p with _ | seg
      · rw [hls] at h
        cases h
      · rw [hls] at h
        by_cases hs : seg = ""
        · simp [hs] at h
        · simp only [hs, if_neg] at h
          cases h
          exact hs
  · intro s n hreal hfile
    simp [resolveTarget, jsOrString, hreal, fallbackClusteredFilename, hfile,
      clustered_fallback_ne_empty n]

/-- C10 (witness): the slash-ending and non-recording clauses at concrete
inputs, and the fallback resolution at a concrete state. -/
theorem C10_canonical_nonempty_witness :
    updateCanonical none (some (String.mk ("out".data ++ ['/']))) = none
    ∧ resolveTarget { initState with file := some "survey.xlsx" }
      = some ("clustered_" ++ "survey.xlsx") := by
  exact ⟨C10_canonical_nonempty.2.2.1 none "out".data '/' (by decide),
    C10_canonical_nonempty.2.2.2.2 _ "survey.xlsx" rfl rfl⟩

/-! ## Claim about remote error surfacing (C6) -/

/-- C6 (counterexample): a non-2xx response with status `500` and a body
that is not parseable as JSON surfaces `"Unknown error"` (the `detail` of
the catch-handler's substitute object), not the generic `"HTTP 500"`
message the claim demands. -/
theorem C6_error_detail_counterexample :
    surfacedError 500 .unparseable = "Unknown error"
    ∧ surfacedError 500 .unparseable ≠ httpStatusMessage 500 := by
  decide

/-- C6 (amended): for the form-posting remote operations, a non-2xx
response surfaces the JSON body's `detail` field verbatim when it parses
with a non-empty `detail`; when the body parses but `detail` is absent or
empty, the error text falls back to the generic `"HTTP <status>"` message;
when the body is not parseable as JSON, the error text is
`"Unknown error"`; and the download operation always surfaces
`"Download failed: HTTP <status>"` without reading the body. -/
theorem C6_error_detail_amended :
    (∀ (st : Nat) (d : String),
      surfacedError st (.parsed (some d)) = if d = "" then httpStatusMessage st else d)
    ∧ (∀ st : Nat, surfacedError st (.parsed none) = httpStatusMessage st)
    ∧ (∀ st : Nat, surfacedError st .unparseable = "Unknown error")
    ∧ (∀ st : Nat, downloadErrorMessage st = "Download failed: HTTP " ++ toString st) := by
  refine ⟨fun st d => ?_, fun st => rfl, fun st => rfl, fun st => rfl⟩
  by_cases hd : d = "" <;> simp [surfacedError, errDetail, hd]

/-! ## Invariants of the pipeline state machine -/

theorem quiescentInv_init : QuiescentInv initState := by
  refine ⟨rfl, rfl, rfl, ?_, ?_⟩ <;> simp [initState]

/-- An enabled step-2 run button implies stage 1 has a committed result. -/
theorem step2_enabled_preprocess (s : HomeState) (h : QuiescentInv s)
    (he : runButtonDisabled false (step2Status s) = false) :
    s.preprocessResult.isSome := by
  cases hcr : s.clusterResult.isSome
  · cases hpr : s.preprocessResult.isSome
    · exfalso
      rw [step2Status, if_neg (by simp [h.2.1]), if_neg (by simp [hcr]),
        if_neg (by simp [hpr])] at he
      exact absurd he (by decide)
    · rfl
  · exact h.2.2.2.1 hcr

/-- An enabled step-3 run button implies stage 2 has a committed result. -/
theorem step3_enabled_cluster (s : HomeState) (h : QuiescentInv s)
    (he : runButtonDisabled false (step3Status s) = false) :
    s.clusterResult.isSome := by
  cases hkr : s.keywordsResult.isSome
  · cases hcr : s.clusterResult.isSome
    · exfalso
      rw [step3Status, if_neg (by simp [h.2.2.1]), if_neg (by simp [hkr]),
        if_neg (by simp [hcr])] at he
      exact absurd he (by decide)
    · rfl
  · exact h.2.2.2.2 hkr

theorem quiescentInv_step (s : HomeState) (e : Event) (h : QuiescentInv s) :
    QuiescentInv (stepEvent s e) := by
  obtain ⟨h1, h2, h3, hcp, hkc⟩ := h
  cases e with
  | selectFile name =>
    exact ⟨h1, h2, h3, hcp, hkc⟩
  | saveCleanCfg c =>
    exact ⟨h1, h2, h3, hcp, hkc⟩
  | saveClusterCfg c =>
    exact ⟨h1, h2, h3, hcp, hkc⟩
  | saveLlmCfg c =>
    exact ⟨h1, h2, h3, hcp, hkc⟩
  | run1 o =>
    show QuiescentInv (clickStep1 s o).1
    rw [clickStep1]
    split
    · exact ⟨h1, h2, h3, hcp, hkc⟩
    · rw [handleStep1]
      cases s.file with
      | none => exact ⟨h1, h2, h3, hcp, hkc⟩
      | some name =>
        cases o with
        | failure msg => exact ⟨rfl, h2, h3, by simp [step1Started], by simp [step1Started]⟩
        | success res => exact ⟨rfl, h2, h3, by simp [step1Started], by simp [step1Started]⟩
  | run2 o =>
    show QuiescentInv (clickStep2 s o).1
    rw [clickStep2]
    cases hdis : runButtonDisabled false (step2Status s)
    · have hpre := step2_enabled_preprocess s ⟨h1, h2, h3, hcp, hkc⟩ hdis
      rw [if_neg (by simp [hdis])]
      rw [handleStep2]
      cases hf : processedFilename s with
      | none => exact ⟨h1, h2, h3, hcp, hkc⟩
      | some pname =>
        cases o with
        | downloadFailure msg =>
          exact ⟨h1, rfl, h3, by simp [step2Started], by simp [step2Started]⟩
        | clusterFailure msg =>
          exact ⟨h1, rfl, h3, by simp [step2Started], by simp [step2Started]⟩
        | success res =>
          exact ⟨h1, rfl, h3, by simp [step2Started]; exact hpre, by simp [step2Started]⟩
    · rw [if_pos (by simp [hdis])]
      exact ⟨h1, h2, h3, hcp, hkc⟩
  | run3 o =>
    show QuiescentInv (clickStep3 s o).1
    rw [clickStep3]
    cases hdis : runButtonDisabled false (step3Status s)
    · have hclu := step3_enabled_cluster s ⟨h1, h2, h3, hcp, hkc⟩ hdis
      rw [if_neg (by simp [hdis])]
      rw [handleStep3]
      split
      · exact ⟨h1, h2, h3, hcp, hkc⟩
      · split
        · exact ⟨h1, h2, h3, hcp, hkc⟩
        · cases o with
          | downloadFailure msg =>
            exact ⟨h1, h2, rfl, hcp, by simp [step3Started]⟩
          | keywordsFailure msg =>
            exact ⟨h1, h2, rfl, hcp, by simp [step3Started]⟩
          | success res =>
            exact ⟨h1, h2, rfl, hcp, by simp [step3Started]; exact hclu⟩
    · rw [if_pos (by simp [hdis])]
      exact ⟨h1, h2, h3, hcp, hkc⟩

theorem reachable_quiescentInv {s : HomeState} (h : Reachable s) : QuiescentInv s := by
  induction h with
  | init => exact quiescentInv_init
  | step e _ ih => exact quiescentInv_step _ e ih

/-! ## Claims about the pipeline state machine (C2, C4, C5, C9) -/

/-- C2: in every reachable state, invoking a stage's run operation when the
stage is not `Ready` — for stage 2, when stage 1 is not `Done`; for
stage 3, when stage 2 is not `Done` — is a no-op: no remote call is issued
and the state is unchanged (the run button is disabled for a `waiting`
stage, and upstream-incomplete stages are always `waiting`). -/
theorem C2_run_precondition (s : HomeState) (hs : Reachable s)
    (o₂ : Step2Outcome) (o₃ : Step3Outcome) :
    (step1Status s ≠ .done → clickStep2 s o₂ = (s, []))
    ∧ (step2Status s ≠ .done → clickStep3 s o₃ = (s, [])) := by
  obtain ⟨h1, h2, h3, hcp, hkc⟩ := reachable_quiescentInv hs
  constructor
  · intro hnd
    have hpr : s.preprocessResult.isSome = false := by
      cases hpr : s.preprocessResult.isSome
      · rfl
      · exact absurd (by rw [step1Status, if_neg (by simp [h1]), if_pos hpr]) hnd
    have hcr : s.clusterResult.isSome = false := by
      cases hcr : s.clusterResult.isSome
      · rfl
      · rw [hcp hcr] at hpr
        cases hpr
    have hw : step2Status s = .waiting := by
      rw [step2Status, if_neg (by simp [h2]), if_neg (by simp [hcr]), if_neg (by simp [hpr])]
    rw [clickStep2, if_pos (by rw [hw]; decide)]
  · intro hnd
    have hcr : s.clusterResult.isSome = false := by
      cases hcr : s.clusterResult.isSome
      · rfl
      · exact absurd (by rw [step2Status, if_neg (by simp [h2]), if_pos hcr]) hnd
    have hkr : s.keywordsResult.isSome = false := by
      cases hkr : s.keywordsResult.isSome
      · rfl
      · rw [hkc hkr] at hcr
        cases hcr
    have hw : step3Status s = .waiting := by
      rw [step3Status, if_neg (by simp [h3]), if_neg (by simp [hkr]), if_neg (by simp [hcr])]
    rw [clickStep3, if_pos (by rw [hw]; decide)]

/-- C2 (witness): in the initial state — reachable, with stage 1 not `Done`
and stage 2 not `Done` — clicking run on stage 2 or stage 3 issues no
remote call and changes nothing. -/
theorem C2_run_precondition_witness :
    clickStep2 initState (.downloadFailure "boom") = (initState, [])
    ∧ clickStep3 initState (.downloadFailure "boom") = (initState, []) := by
  exact ⟨(C2_run_precondition initState .init (.downloadFailure "boom") (.downloadFailure "boom")).1
      (by decide),
    (C2_run_precondition initState .init (.downloadFailure "boom") (.downloadFailure "boom")).2
      (by decide)⟩

/-- C4: entering `Running` for stage 1 resets stages 2 and 3 — their
results and artifact references are discarded in the synchronous prefix
`step1Started`, i.e. before the stage-1 remote call resolves, and they are
still discarded after the full run whatever its outcome (in particular
when it fails); likewise entering `Running` for stage 2 discards stage 3's
result and artifact reference; afterwards each downstream stage is back in
its upstream-dependent state (`ready` when its upstream result exists,
else `waiting`). -/
theorem C4_rerun_invalidates_downstream (s : HomeState)
    (o₁ : Step1Outcome) (o₂ : Step2Outcome) (hf : s.file.isSome) :
    ((step1Started s).preprocessResult = none
      ∧ (step1Started s).clusterResult = none
      ∧ (step1Started s).keywordsResult = none
      ∧ (step1Started s).realClusteredFilename = none
      ∧ (step1Started s).realKeywordsFilename = none)
    ∧ ((handleStep1 s o₁).1.clusterResult = none
      ∧ (handleStep1 s o₁).1.keywordsResult = none
      ∧ (handleStep1 s o₁).1.realClusteredFilename = none
      ∧ (handleStep1 s o₁).1.realKeywordsFilename = none)
    ∧ ((step2Started s).keywordsResult = none
      ∧ (step2Started s).realKeywordsFilename = none)
    ∧ ((handleStep2 s o₂).1.keywordsResult = none
      ∧ (handleStep2 s o₂).1.realKeywordsFilename = none)
    ∧ (s.step2Loading = false →
        step2Status (handleStep1 s o₁).1
          = if (handleStep1 s o₁).1.preprocessResult.isSome then .ready else .waiting)
    ∧ (s.step3Loading = false → step3Status (handleStep1 s o₁).1 = .waiting)
    ∧ (s.step3Loading = false →
        step3Status (handleStep2 s o₂).1
          = if (handleStep2 s o₂).1.clusterResult.isSome then .ready else .waiting) := by
  obtain ⟨n, hn⟩ := Option.isSome_iff_exists.mp hf
  have hpf : processedFilename s = some ("processed_" ++ n) := by
    simp [processedFilename, hn]
  refine ⟨⟨rfl, rfl, rfl, rfl, rfl⟩, ?_, ⟨rfl, rfl⟩, ?_, ?_, ?_, ?_⟩
  · cases o₁ <;> simp [handleStep1, hn, step1Started]
  · cases o₂ <;> simp [handleStep2, hpf, step2Started]
  · intro hl2
    cases o₁ <;>
      simp [handleStep1, hn, step1Started, step2Status, step3Status, hl2]
  · intro hl3
    cases o₁ <;>
      simp [handleStep1, hn, step1Started, step2Status, step3Status, hl3]
  · intro hl3
    cases o₂ <;>
      simp [handleStep2, hpf, step2Started, step3Status, hl3]

/-- C4 (witness): the theorem applied to `c4State` with failing reruns:
stage 2's and stage 3's results and artifact references are all cleared
already in the synchronous prefix of stage 1's rerun, and stay cleared
after the failed rerun. -/
theorem C4_rerun_invalidates_downstream_witness :
    ((step1Started c4State).clusterResult = none
      ∧ (step1Started c4State).keywordsResult = none
      ∧ (step1Started c4State).realClusteredFilename = none
      ∧ (step1Started c4State).realKeywordsFilename = none)
    ∧ ((handleStep1 c4State (.failure "boom")).1.clusterResult = none
      ∧ (handleStep1 c4State (.failure "boom")).1.keywordsResult = none
      ∧ (handleStep1 c4State (.failure "boom")).1.realClusteredFilename = none
      ∧ (handleStep1 c4State (.failure "boom")).1.realKeywordsFilename = none) := by
  have h := C4_rerun_invalidates_downstream c4State (.failure "boom") (.downloadFailure "boom")
    (by decide)
  exact ⟨⟨h.1.2.1, h.1.2.2.1, h.1.2.2.2.1, h.1.2.2.2.2⟩, h.2.1⟩

/-- C5: invoking stage 3's run operation with an empty credential
(`apiKey = ""`) issues no remote call — neither the artifact download nor
the keyword-extraction call — and leaves every stage result untouched;
what is signalled is a configuration requirement, not a remote error:
whenever the clustered artifact is locatable, the LLM configuration dialog
is opened and the error slot is untouched, and otherwise the
missing-artifact configuration message is set. -/
theorem C5_empty_credential_short_circuit (s : HomeState) (o : Step3Outcome)
    (hk : s.llmCfg.apiKey = "") :
    (handleStep3 s o).2 = []
    ∧ (handleStep3 s o).1.preprocessResult = s.preprocessResult
    ∧ (handleStep3 s o).1.clusterResult = s.clusterResult
    ∧ (handleStep3 s o).1.keywordsResult = s.keywordsResult
    ∧ ((handleStep3 s o).1.llmDialogOpen = true
        ∨ (handleStep3 s o).1.error = some missingClusterFileMessage)
    ∧ (∀ t, resolveTarget s = some t →
        (handleStep3 s o).1.llmDialogOpen = true ∧ (handleStep3 s o).1.error = s.error) := by
  rcases ht : resolveTarget s with _ | target
  · refine ⟨?_, ?_, ?_, ?_, Or.inr ?_, ?_⟩ <;> simp [handleStep3, ht]
  · refine ⟨?_, ?_, ?_, ?_, Or.inl ?_, ?_⟩ <;> simp [handleStep3, ht, hk]

/-- C5 (witness): the theorem applied to `c5State` and a would-be failing
outcome. -/
theorem C5_empty_credential_short_circuit_witness :
    (handleStep3 c5State (.downloadFailure "boom")).2 = []
    ∧ (handleStep3 c5State (.downloadFailure "boom")).1.clusterResult = c5State.clusterResult
    ∧ (handleStep3 c5State (.downloadFailure "boom")).1.llmDialogOpen = true := by
  have h := C5_empty_credential_short_circuit c5State (.downloadFailure "boom") rfl
  exact ⟨h.1, h.2.2.1, (h.2.2.2.2.2 "clustered_report.xlsx" (by decide)).1⟩

/-- Whenever an input file is selected, stage 3's target artifact name
resolves to something. -/
theorem resolveTarget_isSome_of_file (s : HomeState) (n : String) (hn : s.file = some n) :
    ∃ t, resolveTarget s = some t := by
  rcases hr : s.realClusteredFilename with _ | x
  · exact ⟨"clustered_" ++ n,
      by simp [resolveTarget, jsOrString, hr, fallbackClusteredFilename, hn,
        clustered_fallback_ne_empty n]⟩
  · by_cases hx : x = ""
    · exact ⟨"clustered_" ++ n,
        by simp [resolveTarget, jsOrString, hr, hx, fallbackClusteredFilename, hn,
          clustered_fallback_ne_empty n]⟩
    · exact ⟨x, by simp [resolveTarget, jsOrString, hr, hx]⟩

/-- C9: a failed run of stage N surfaces exactly one error message — the
failure's message in the single error slot; the message is cleared when
the stage is next attempted (the synchronous prefix of a new run resets
the slot to `null`); the failed stage ends in `ready`, so the error never
blocks re-attempting it; and the committed results of stages earlier than
N are untouched.  Stated for stage 1 and for both failure points of
stages 2 and 3, under the conditions in which the stage legitimately ran
(file selected; upstream results committed; non-empty credential for
stage 3). -/
theorem C9_error_per_stage (s : HomeState) (m : String) (hf : s.file.isSome)
    (hp : s.preprocessResult.isSome) (hc : s.clusterResult.isSome)
    (hk : s.llmCfg.apiKey ≠ "") :
    ((handleStep1 s (.failure m)).1.error = some m
      ∧ step1Status (handleStep1 s (.failure m)).1 = .ready
      ∧ (handleStep1 s (.failure m)).1.file = s.file
      ∧ (step1Started (handleStep1 s (.failure m)).1).error = none)
    ∧ (∀ o₂ : Step2Outcome, o₂ = .downloadFailure m ∨ o₂ = .clusterFailure m →
        (handleStep2 s o₂).1.error = some m
        ∧ (handleStep2 s o₂).1.preprocessResult = s.preprocessResult
        ∧ (handleStep2 s o₂).1.file = s.file
        ∧ step2Status (handleStep2 s o₂).1 = .ready
        ∧ (step2Started (handleStep2 s o₂).1).error = none)
    ∧ (∀ o₃ : Step3Outcome, o₃ = .downloadFailure m ∨ o₃ = .keywordsFailure m →
        (handleStep3 s o₃).1.error = some m
        ∧ (handleStep3 s o₃).1.preprocessResult = s.preprocessResult
        ∧ (handleStep3 s o₃).1.clusterResult = s.clusterResult
        ∧ (handleStep3 s o₃).1.realClusteredFilename = s.realClusteredFilename
        ∧ step3Status (handleStep3 s o₃).1 = .ready
        ∧ (step3Started (handleStep3 s o₃).1).error = none) := by
  obtain ⟨n, hn⟩ := Option.isSome_iff_exists.mp hf
  have hpf : processedFilename s = some ("processed_" ++ n) := by
    simp [processedFilename, hn]
  obtain ⟨t, ht⟩ := resolveTarget_isSome_of_file s n hn
  refine ⟨?_, ?_, ?_⟩
  · refine ⟨?_, ?_, ?_, ?_⟩ <;>
      simp [handleStep1, hn, step1Started, step1Status]
  · rintro o₂ (rfl | rfl) <;>
      refine ⟨?_, ?_, ?_, ?_, ?_⟩ <;>
        simp [handleStep2, hpf, step2Started, step2Status, hp]
  · rintro o₃ (rfl | rfl) <;>
      refine ⟨?_, ?_, ?_, ?_, ?_, ?_⟩ <;>
        simp [handleStep3, ht, hk, step3Started, step3Status, hc]

/-- C9 (witness): the theorem applied to a concrete fully-completed state
with the failure message `"HTTP 500"`. -/
theorem C9_error_per_stage_witness :
    (handleStep1 c4State (.failure "HTTP 500")).1.error = some "HTTP 500"
    ∧ (handleStep2 c4State (.downloadFailure "HTTP 500")).1.error = some "HTTP 500"
    ∧ step2Status (handleStep2 c4State (.downloadFailure "HTTP 500")).1 = .ready
    ∧ (handleStep3 c4State (.keywordsFailure "HTTP 500")).1.clusterResult
        = c4State.clusterResult := by
  have h := C9_error_per_stage c4State "HTTP 500" (by decide) (by decide) (by decide) (by decide)
  refine ⟨h.1.1, ?_, ?_, ?_⟩
  · exact (h.2.1 (.downloadFailure "HTTP 500") (Or.inl rfl)).1
  · exact (h.2.1 (.downloadFailure "HTTP 500") (Or.inl rfl)).2.2.2.1
  · exact (h.2.2 (.keywordsFailure "HTTP 500") (Or.inr rfl)).2.2.1

end AppealAnalysis
